import Mathlib

/-!
Verification of the counter/text reducer-context module
(`src/context/CounterContext.tsx`).

The module holds a state `{ count, text }`, a reducer switching on an
action tag (the const enum `REDUCER_ACTION_TYPE` compiles to the numbers
0, 1, 2), a provider that forwards its props as the initial state, an
event handler dispatching the input's value, and a default context bundle
whose operations are no-ops.

JavaScript numbers used as the counter are embedded as unbounded `Int`
(the spec's integer model); the reducer's `throw new Error()` default
branch is embedded as `Except.error ()`; the optional `payload` and the
possibly-absent props fields are embedded as `Option`.
-/

/-- State type of the module: `type StateType = { count: number, text: string }`. -/
structure StateType where
  count : Int
  text : String
  deriving DecidableEq, Repr

/-- `export const initState: StateType = { count: 0, text: '' }`. -/
def initState : StateType := { count := 0, text := "" }

namespace REDUCER_ACTION_TYPE

/-- First enum member of `const enum REDUCER_ACTION_TYPE`; compiles to 0. -/
def INCREMENT : Nat := 0

/-- Second enum member; compiles to 1. -/
def DECREMENT : Nat := 1

/-- Third enum member; compiles to 2. -/
def NEW_INPUT : Nat := 2

end REDUCER_ACTION_TYPE

/-- `type ReducerAction = { type: REDUCER_ACTION_TYPE, payload?: string }`.
The tag is a `Nat` so that values outside the enum (which the reducer's
default branch guards against) are representable. -/
structure ReducerAction where
  type : Nat
  payload : Option String := none
  deriving DecidableEq, Repr

/-- The reducer of `CounterContext.tsx` (lines 32-43).  Each case spreads
the previous state and overwrites one field; the default case is
`throw new Error()`, embedded as `Except.error ()`.  `action.payload ?? ""`
is `Option.getD`. -/
def reducer (state : StateType) (action : ReducerAction) : Except Unit StateType :=
  if action.type = REDUCER_ACTION_TYPE.INCREMENT then
    Except.ok { state with count := state.count + 1 }
  else if action.type = REDUCER_ACTION_TYPE.DECREMENT then
    Except.ok { state with count := state.count - 1 }
  else if action.type = REDUCER_ACTION_TYPE.NEW_INPUT then
    Except.ok { state with text := action.payload.getD "" }
  else
    Except.error ()

/-- Apply the same action `n` times, threading the `Except`. -/
def applyN (action : ReducerAction) : Nat → StateType → Except Unit StateType
  | 0, s => Except.ok s
  | n + 1, s => reducer s action >>= applyN action n

/-- `e.target` of a change event: the input element, carrying its `value`. -/
structure EventTarget where
  value : String
  deriving DecidableEq, Repr

/-- `ChangeEvent<HTMLInputElement>` as consumed by `handleTextInput`. -/
structure ChangeEvent where
  target : EventTarget
  deriving DecidableEq, Repr

/-- `handleTextInput` (lines 54-59): dispatches
`{ type: NEW_INPUT, payload: e.target.value }`.  Dispatching an action is
embedded as applying the reducer to the current state. -/
def handleTextInput (e : ChangeEvent) (state : StateType) : Except Unit StateType :=
  reducer state { type := REDUCER_ACTION_TYPE.NEW_INPUT, payload := some e.target.value }

/-- `increment` callback (line 52): dispatches `{ type: INCREMENT }`. -/
def increment (state : StateType) : Except Unit StateType :=
  reducer state { type := REDUCER_ACTION_TYPE.INCREMENT }

/-- `decrement` callback (line 53): dispatches `{ type: DECREMENT }`. -/
def decrement (state : StateType) : Except Unit StateType :=
  reducer state { type := REDUCER_ACTION_TYPE.DECREMENT }

/-- The context bundle `UseCounterContextType`: the state plus the three
operations, each operation embedded by its effect on the state. -/
structure UseCounterContextType where
  state : StateType
  increment : StateType → StateType
  decrement : StateType → StateType
  handleTextInput : ChangeEvent → StateType → StateType

/-- `initContextState` (lines 82-87): the default context value.  Its state
is the module default `initState` and its operations are the no-ops
`() => {}` and `(e) => {}`, which perform no state change: embedded as the
identity on the state. -/
def initContextState : UseCounterContextType :=
  { state := initState
    increment := fun s => s
    decrement := fun s => s
    handleTextInput := fun _ s => s }

/-- Runtime view of the non-children props of `CounterProvider`
(`ChildrenType & StateType` destructured as `{ children, ...initState }`).
The TS type marks `count` and `text` required; `Option` records whether a
field is actually present at the call site. -/
structure ProviderProps where
  count : Option Int
  text : Option String
  deriving DecidableEq, Repr

/-- Initial state computed by `CounterProvider` (lines 99-105): the rest
spread `...initState` collects the `count`/`text` props unchanged and they
are handed to `useReducer(reducer, initState)` with no `init` function, so
the fields pass through exactly as supplied, with no defaulting. -/
def CounterProviderInitState (props : ProviderProps) : ProviderProps :=
  { count := props.count, text := props.text }

/-- Modelled from the spec: provider initial state with the claimed
defaulting, `count = 0` and `text = ""` applied for absent fields
("Provider construction accepts `{count?: integer, text?: string, ...}`",
"defaults applied if absent").  Stated only to compare against
`CounterProviderInitState`, which embeds the source. -/
def specProviderInitState (props : ProviderProps) : StateType :=
  { count := props.count.getD 0, text := props.text.getD "" }

/- ------------------------------------------------------------------ -/
/- Theorems                                                           -/
/- ------------------------------------------------------------------ -/

/-- C1: for every state, Increment returns `{count + 1, text}` with text
unchanged, Decrement returns `{count - 1, text}`, and SetText with payload
`p` returns `{count, p}` with count unchanged; the untargeted field is
carried forward and both fields are present in the result. -/
theorem reducer_cases (s : StateType) (p : String) :
    reducer s { type := REDUCER_ACTION_TYPE.INCREMENT }
      = Except.ok { count := s.count + 1, text := s.text } ∧
    reducer s { type := REDUCER_ACTION_TYPE.DECREMENT }
      = Except.ok { count := s.count - 1, text := s.text } ∧
    reducer s { type := REDUCER_ACTION_TYPE.NEW_INPUT, payload := some p }
      = Except.ok { count := s.count, text := p } := by
  refine ⟨rfl, rfl, rfl⟩

/-- C2: for every state, an action whose tag is none of Increment (0),
Decrement (1), SetText (2) makes the reducer throw (`Except.error`); it is
never a silently-ignored no-op returning a state. -/
theorem reducer_unknown_throws (s : StateType) (a : ReducerAction)
    (h0 : a.type ≠ REDUCER_ACTION_TYPE.INCREMENT)
    (h1 : a.type ≠ REDUCER_ACTION_TYPE.DECREMENT)
    (h2 : a.type ≠ REDUCER_ACTION_TYPE.NEW_INPUT) :
    reducer s a = Except.error () := by
  simp [reducer, h0, h1, h2]

/-- Witness for C2: the unknown tag 3 makes the reducer throw on the
initial state. -/
theorem reducer_unknown_throws_witness :
    reducer initState { type := 3 } = Except.error () :=
  reducer_unknown_throws initState { type := 3 }
    (by decide) (by decide) (by decide)

/-- C3, counterexample: with both props absent, the provider's initial
state does not carry the module defaults — `count` stays absent instead of
becoming the claimed default 0. -/
theorem counterProvider_no_default_count :
    (CounterProviderInitState { count := none, text := none }).count
      ≠ some (0 : Int) := by
  decide

/-- C3, amended: `CounterProvider` takes the `count` and `text` props
(required by its TS type `ChildrenType & StateType`) and passes them
through unchanged as the initial reducer state; no module default is
applied by the provider. -/
theorem counterProvider_passes_props (c : Option Int) (t : Option String) :
    CounterProviderInitState { count := c, text := t }
      = { count := c, text := t } := rfl

/-- C4: count is a signed unbounded integer with initial value 0, and for
every state — arbitrarily large or small count included — Increment
changes count by exactly +1 and Decrement by exactly -1, with no
clamping. -/
theorem count_unbounded_step :
    initState.count = 0 ∧
    ∀ s : StateType,
      (increment s = Except.ok { count := s.count + 1, text := s.text } ∧
       decrement s = Except.ok { count := s.count - 1, text := s.text }) :=
  ⟨rfl, fun _ => ⟨rfl, rfl⟩⟩

/-- C5: the text-update operation returned by the text accessor, applied
to an input event carrying the new text content, submits a SetText action
with exactly that string, so the resulting state's text is the new content
and count is unchanged. -/
theorem handleTextInput_sets_text (e : ChangeEvent) (s : StateType) :
    handleTextInput e s
      = Except.ok { count := s.count, text := e.target.value } := rfl

/-- C6: applying Increment n times yields `count = s.count + n` with text
unchanged, and applying Decrement n times yields `count = s.count - n`
with text unchanged. -/
theorem applyN_increment_decrement (s : StateType) (n : Nat) :
    applyN { type := REDUCER_ACTION_TYPE.INCREMENT } n s
      = Except.ok { count := s.count + n, text := s.text } ∧
    applyN { type := REDUCER_ACTION_TYPE.DECREMENT } n s
      = Except.ok { count := s.count - n, text := s.text } := by
  induction n generalizing s with
  | zero => simp [applyN]
  | succ n ih =>
      constructor
      · show (reducer s _ >>= applyN _ n) = _
        rw [show reducer s { type := REDUCER_ACTION_TYPE.INCREMENT }
              = Except.ok { count := s.count + 1, text := s.text } from rfl]
        show applyN _ n { count := s.count + 1, text := s.text } = _
        rw [(ih { count := s.count + 1, text := s.text }).1]
        congr 1
        simp
        ring
      · show (reducer s _ >>= applyN _ n) = _
        rw [show reducer s { type := REDUCER_ACTION_TYPE.DECREMENT }
              = Except.ok { count := s.count - 1, text := s.text } from rfl]
        show applyN _ n { count := s.count - 1, text := s.text } = _
        rw [(ih { count := s.count - 1, text := s.text }).2]
        congr 1
        simp
        ring

/-- C7: applying SetText(v) twice in a row yields the same final state as
applying it once — SetText is idempotent, for every state and string,
including the empty string. -/
theorem setText_idempotent (s : StateType) (v : String) :
    (reducer s { type := REDUCER_ACTION_TYPE.NEW_INPUT, payload := some v } >>=
      fun s1 => reducer s1 { type := REDUCER_ACTION_TYPE.NEW_INPUT, payload := some v })
      = reducer s { type := REDUCER_ACTION_TYPE.NEW_INPUT, payload := some v } := rfl

/-- C8: a SetText action with an absent payload is normalized to the empty
string: the reducer returns a state (never an error) whose text is `""`
and whose count is unchanged. -/
theorem setText_absent_payload (s : StateType) :
    reducer s { type := REDUCER_ACTION_TYPE.NEW_INPUT, payload := none }
      = Except.ok { count := s.count, text := "" } := rfl

/-- C9: the default context bundle has state equal to the module defaults
`{count := 0, text := ""}` and its increment, decrement and text-update
operations perform no state change, so a consumer without a provider never
faults. -/
theorem initContextState_default_noops :
    initContextState.state = { count := 0, text := "" } ∧
    (∀ s : StateType, initContextState.increment s = s) ∧
    (∀ s : StateType, initContextState.decrement s = s) ∧
    (∀ (e : ChangeEvent) (s : StateType), initContextState.handleTextInput e s = s) :=
  ⟨rfl, fun _ => rfl, fun _ => rfl, fun _ _ => rfl⟩

/-- C10: Increment followed by Decrement (and Decrement followed by
Increment) returns exactly the original state, text included. -/
theorem increment_decrement_inverse (s : StateType) :
    (increment s >>= decrement) = Except.ok s ∧
    (decrement s >>= increment) = Except.ok s := by
  constructor
  · show decrement { count := s.count + 1, text := s.text } = Except.ok s
    show Except.ok { count := s.count + 1 - 1, text := s.text } = Except.ok s
    simp
  · show increment { count := s.count - 1, text := s.text } = Except.ok s
    show Except.ok { count := s.count - 1 + 1, text := s.text } = Except.ok s
    simp
